import Mathlib

/-!
Shallow embedding of the school information management system
(server/storage.ts, server/routes.ts, shared/schema.ts,
client/src/lib/exportData.ts).

Modelling conventions:
* JavaScript `Map<number, T>` collections become association lists
  `List (Nat × T)` preserving insertion order; `Map.get`, `Map.set`,
  `Map.delete` become `mget`, `mset`, `mdelete`.
* Date values (JS `Date` objects and drizzle `date`/`timestamp` columns)
  become `Nat` milliseconds since the Unix epoch.
* JavaScript numeric arithmetic in the dashboard statistics is modelled
  over `ℚ`; `Math.round` becomes `jsRound` (round half toward positive
  infinity, the JS semantics).
* Nullable columns become `Option` fields.  An unvalidated JSON request
  body is a payload structure whose fields are all `Option`; zod
  `safeParse` against an insert schema becomes a `parse...` function that
  succeeds exactly when every `notNull` column without a database default
  is present.
-/

namespace SchoolMS

/-- Record of the `users` table (shared/schema.ts). -/
structure User where
  id : Nat
  username : String
  password : String
  role : String
  fullName : String
  email : String
  avatar : Option String
  deriving DecidableEq

/-- Record of the `students` table (shared/schema.ts). -/
structure Student where
  id : Nat
  studentId : String
  firstName : String
  lastName : String
  gender : String
  dateOfBirth : Nat
  email : String
  phone : Option String
  address : Option String
  guardianName : Option String
  guardianPhone : Option String
  gradeLevel : String
  «section» : String
  enrollmentDate : Nat
  avatar : Option String
  deriving DecidableEq

/-- Record of the `teachers` table (shared/schema.ts). -/
structure Teacher where
  id : Nat
  teacherId : String
  firstName : String
  lastName : String
  email : String
  phone : Option String
  address : Option String
  qualification : Option String
  joinDate : Nat
  subjects : Option (List String)
  avatar : Option String
  userId : Option Nat
  deriving DecidableEq

/-- Record of the `classes` table (shared/schema.ts); named `ClassRec`
because `class` is a Lean keyword. -/
structure ClassRec where
  id : Nat
  className : String
  classCode : String
  gradeLevel : String
  «section» : Option String
  description : Option String
  teacherId : Option Nat
  schedule : Option String
  roomNumber : Option String
  academicYear : String
  deriving DecidableEq

/-- Record of the `class_enrollments` table (shared/schema.ts). -/
structure ClassEnrollment where
  id : Nat
  classId : Nat
  studentId : Nat
  enrollmentDate : Nat
  deriving DecidableEq

/-- Record of the `attendance` table (shared/schema.ts). -/
structure Attendance where
  id : Nat
  classId : Nat
  studentId : Nat
  date : Nat
  status : String
  notes : Option String
  deriving DecidableEq

/-- Record of the `grades` table (shared/schema.ts); `decimal` columns
are modelled over `ℚ`. -/
structure Grade where
  id : Nat
  classId : Nat
  studentId : Nat
  assignmentName : String
  assignmentType : String
  maxScore : ℚ
  score : ℚ
  gradedDate : Nat
  comments : Option String
  deriving DecidableEq

/-- Record of the `events` table (shared/schema.ts). -/
structure EventRec where
  id : Nat
  title : String
  description : Option String
  startDate : Nat
  endDate : Option Nat
  startTime : Option String
  endTime : Option String
  allDay : Option Bool
  location : Option String
  type : String
  deriving DecidableEq

/-- Record of the `activities` table (shared/schema.ts); `timestamp` is
assigned by the server at creation. -/
structure Activity where
  id : Nat
  userId : Option Nat
  action : String
  details : Option String
  timestamp : Nat
  deriving DecidableEq

/-- JS `Map.get`: the value stored under key `k`, if any. -/
def mget {α : Type} : List (Nat × α) → Nat → Option α
  | [], _ => none
  | p :: m, k => if p.1 == k then some p.2 else mget m k

/-- JS `Map.set`: replace the value under `k` in place if present,
otherwise append the new entry (JS `Map` preserves insertion order). -/
def mset {α : Type} : List (Nat × α) → Nat → α → List (Nat × α)
  | [], k, v => [(k, v)]
  | p :: m, k, v => if p.1 == k then (k, v) :: m else p :: mset m k v

/-- JS `Map.delete`: returns whether an entry with key `k` existed,
together with the map with that entry removed. -/
def mdelete {α : Type} (m : List (Nat × α)) (k : Nat) : Bool × List (Nat × α) :=
  (m.any (fun p => p.1 == k), m.filter (fun p => p.1 != k))

/-- State of `MemStorage` (server/storage.ts): nine collections, each a
JS `Map` keyed by id, plus one id counter per collection. -/
structure Store where
  users : List (Nat × User)
  students : List (Nat × Student)
  teachers : List (Nat × Teacher)
  classes : List (Nat × ClassRec)
  classEnrollments : List (Nat × ClassEnrollment)
  attendance : List (Nat × Attendance)
  grades : List (Nat × Grade)
  events : List (Nat × EventRec)
  activities : List (Nat × Activity)
  userIdCounter : Nat
  studentIdCounter : Nat
  teacherIdCounter : Nat
  classIdCounter : Nat
  classEnrollmentIdCounter : Nat
  attendanceIdCounter : Nat
  gradeIdCounter : Nat
  eventIdCounter : Nat
  activityIdCounter : Nat
  deriving DecidableEq

/-- The store state produced by the first lines of the `MemStorage`
constructor, before any seeding: empty maps, every counter at 1. -/
def emptyStore : Store where
  users := []
  students := []
  teachers := []
  classes := []
  classEnrollments := []
  attendance := []
  grades := []
  events := []
  activities := []
  userIdCounter := 1
  studentIdCounter := 1
  teacherIdCounter := 1
  classIdCounter := 1
  classEnrollmentIdCounter := 1
  attendanceIdCounter := 1
  gradeIdCounter := 1
  eventIdCounter := 1
  activityIdCounter := 1

/-- Validated insert payload for a Student (`InsertStudent` in
shared/schema.ts: every column of `students` except `id`). -/
structure InsertStudent where
  studentId : String
  firstName : String
  lastName : String
  gender : String
  dateOfBirth : Nat
  email : String
  phone : Option String
  address : Option String
  guardianName : Option String
  guardianPhone : Option String
  gradeLevel : String
  «section» : String
  enrollmentDate : Nat
  avatar : Option String
  deriving DecidableEq

/-- Validated insert payload for a Teacher (`InsertTeacher` in
shared/schema.ts). -/
structure InsertTeacher where
  teacherId : String
  firstName : String
  lastName : String
  email : String
  phone : Option String
  address : Option String
  qualification : Option String
  joinDate : Nat
  subjects : Option (List String)
  avatar : Option String
  userId : Option Nat
  deriving DecidableEq

/-- Validated insert payload for an Activity (`InsertActivity` in
shared/schema.ts: `id` and `timestamp` are omitted). -/
structure InsertActivity where
  userId : Option Nat
  action : String
  details : Option String
  deriving DecidableEq

/-- Partial update payload for a Student: `Partial<InsertStudent>`;
a `none` field is absent from the patch. -/
structure StudentPatch where
  studentId : Option String
  firstName : Option String
  lastName : Option String
  gender : Option String
  dateOfBirth : Option Nat
  email : Option String
  phone : Option (Option String)
  address : Option (Option String)
  guardianName : Option (Option String)
  guardianPhone : Option (Option String)
  gradeLevel : Option String
  «section» : Option String
  enrollmentDate : Option Nat
  avatar : Option (Option String)
  deriving DecidableEq

/-- JS object spread `{ ...student, ...studentData }` for a Student and
a partial patch: every field present in the patch overrides, every other
field keeps its prior value, and `id` is not part of the patch. -/
def mergeStudent (s : Student) (p : StudentPatch) : Student where
  id := s.id
  studentId := p.studentId.getD s.studentId
  firstName := p.firstName.getD s.firstName
  lastName := p.lastName.getD s.lastName
  gender := p.gender.getD s.gender
  dateOfBirth := p.dateOfBirth.getD s.dateOfBirth
  email := p.email.getD s.email
  phone := p.phone.getD s.phone
  address := p.address.getD s.address
  guardianName := p.guardianName.getD s.guardianName
  guardianPhone := p.guardianPhone.getD s.guardianPhone
  gradeLevel := p.gradeLevel.getD s.gradeLevel
  «section» := p.«section».getD s.«section»
  enrollmentDate := p.enrollmentDate.getD s.enrollmentDate
  avatar := p.avatar.getD s.avatar

/-- MemStorage.createStudent: assigns `studentIdCounter` as the id,
increments the counter, stores the record. -/
def Store.createStudent (ins : InsertStudent) (st : Store) : Student × Store :=
  let id := st.studentIdCounter
  let s : Student :=
    { id := id, studentId := ins.studentId, firstName := ins.firstName,
      lastName := ins.lastName, gender := ins.gender,
      dateOfBirth := ins.dateOfBirth, email := ins.email, phone := ins.phone,
      address := ins.address, guardianName := ins.guardianName,
      guardianPhone := ins.guardianPhone, gradeLevel := ins.gradeLevel,
      «section» := ins.«section», enrollmentDate := ins.enrollmentDate,
      avatar := ins.avatar }
  (s, { st with students := mset st.students id s, studentIdCounter := id + 1 })

/-- MemStorage.getStudent. -/
def Store.getStudent (st : Store) (id : Nat) : Option Student :=
  mget st.students id

/-- MemStorage.updateStudent: looks up the record, returns `none`
untouched if absent, otherwise stores the spread-merge of the old record
and the patch. -/
def Store.updateStudent (id : Nat) (p : StudentPatch) (st : Store) :
    Option Student × Store :=
  match mget st.students id with
  | none => (none, st)
  | some s =>
      let u := mergeStudent s p
      (some u, { st with students := mset st.students id u })

/-- MemStorage.deleteStudent: `Map.delete`, returning whether the record
existed. -/
def Store.deleteStudent (id : Nat) (st : Store) : Bool × Store :=
  let r := mdelete st.students id
  (r.1, { st with students := r.2 })

/-- MemStorage.createTeacher: assigns `teacherIdCounter` as the id,
increments the counter, stores the record.  The `userId` field of the
payload is stored as supplied; nothing checks it against the `users`
collection. -/
def Store.createTeacher (ins : InsertTeacher) (st : Store) : Teacher × Store :=
  let id := st.teacherIdCounter
  let t : Teacher :=
    { id := id, teacherId := ins.teacherId, firstName := ins.firstName,
      lastName := ins.lastName, email := ins.email, phone := ins.phone,
      address := ins.address, qualification := ins.qualification,
      joinDate := ins.joinDate, subjects := ins.subjects,
      avatar := ins.avatar, userId := ins.userId }
  (t, { st with teachers := mset st.teachers id t, teacherIdCounter := id + 1 })

/-- MemStorage.getUser. -/
def Store.getUser (st : Store) (id : Nat) : Option User :=
  mget st.users id

/-- MemStorage.deleteUser: deletes only the user entry; the teachers
collection is not touched. -/
def Store.deleteUser (id : Nat) (st : Store) : Bool × Store :=
  let r := mdelete st.users id
  (r.1, { st with users := r.2 })

/-- MemStorage.createActivity: assigns `activityIdCounter` as the id and
the current time `now` as the timestamp. -/
def Store.createActivity (now : Nat) (ins : InsertActivity) (st : Store) :
    Activity × Store :=
  let id := st.activityIdCounter
  let a : Activity :=
    { id := id, userId := ins.userId, action := ins.action,
      details := ins.details, timestamp := now }
  (a, { st with activities := mset st.activities id a,
                activityIdCounter := id + 1 })

/-- Sort relation used by MemStorage.getActivities: the comparator
`(a, b) => b.timestamp - a.timestamp` places `a` before `b` exactly when
`b.timestamp ≤ a.timestamp` (timestamp descending). -/
def tsDesc (a b : Activity) : Prop := b.timestamp ≤ a.timestamp

instance : DecidableRel tsDesc := fun a b => Nat.decLe b.timestamp a.timestamp

instance : IsTotal Activity tsDesc :=
  ⟨fun a b => Nat.le_total b.timestamp a.timestamp⟩

instance : IsTrans Activity tsDesc :=
  ⟨fun _ _ _ h1 h2 => Nat.le_trans h2 h1⟩

/-- MemStorage.getActivities: the stored activities sorted by timestamp
descending. -/
def Store.getActivities (st : Store) : List Activity :=
  List.insertionSort tsDesc (st.activities.map Prod.snd)

/-- MemStorage.getAttendance. -/
def Store.getAttendance (st : Store) : List Attendance :=
  st.attendance.map Prod.snd

/-- MemStorage.getAttendanceByClassId. -/
def Store.getAttendanceByClassId (st : Store) (classId : Nat) : List Attendance :=
  (st.attendance.map Prod.snd).filter (fun a => a.classId == classId)

/-- MemStorage.getAttendanceByStudentId. -/
def Store.getAttendanceByStudentId (st : Store) (studentId : Nat) : List Attendance :=
  (st.attendance.map Prod.snd).filter (fun a => a.studentId == studentId)

/-- UTC calendar day of a millisecond timestamp: the day number that
`toISOString().split('T')[0]` denotes.  Two timestamps produce the same
ISO date string exactly when their day numbers agree. -/
def toDateKey (t : Nat) : Nat := t / 86400000

/-- MemStorage.getAttendanceByDate: keeps the records whose date falls on
the same UTC calendar day as the query date. -/
def Store.getAttendanceByDate (st : Store) (date : Nat) : List Attendance :=
  let dateKey := toDateKey date
  (st.attendance.map Prod.snd).filter (fun a => toDateKey a.date == dateKey)

/-- JS `Math.round`: round half toward positive infinity. -/
def jsRound (x : ℚ) : ℤ := ⌊x + 1 / 2⌋

/-- Return shape of MemStorage.getDashboardStats. -/
structure DashboardStats where
  totalStudents : Nat
  totalTeachers : Nat
  totalClasses : Nat
  attendanceRate : ℚ
  deriving DecidableEq

/-- MemStorage.getDashboardStats: counts the attendance records with
status `present` or `late`, divides by the total (0 when there are no
records), scales to a percentage and rounds to one decimal place. -/
def Store.getDashboardStats (st : Store) : DashboardStats :=
  let attendanceRecords := st.attendance.map Prod.snd
  let presentCount :=
    (attendanceRecords.filter
      (fun a => a.status == "present" || a.status == "late")).length
  let attendanceRate : ℚ :=
    if attendanceRecords.length > 0 then
      ((presentCount : ℚ) / (attendanceRecords.length : ℚ)) * 100
    else 0
  { totalStudents := st.students.length
    totalTeachers := st.teachers.length
    totalClasses := st.classes.length
    attendanceRate := (jsRound (attendanceRate * 10) : ℚ) / 10 }

/-- Unvalidated JSON request body for a Student: every field optional,
as received by `insertStudentSchema.safeParse` (routes.ts). -/
structure StudentPayload where
  studentId : Option String
  firstName : Option String
  lastName : Option String
  gender : Option String
  dateOfBirth : Option Nat
  email : Option String
  phone : Option String
  address : Option String
  guardianName : Option String
  guardianPhone : Option String
  gradeLevel : Option String
  «section» : Option String
  enrollmentDate : Option Nat
  avatar : Option String
  deriving DecidableEq

/-- zod validation of a Student create payload: `insertStudentSchema`
requires every `notNull` column of `students` except the omitted `id`
(studentId, firstName, lastName, gender, dateOfBirth, email, gradeLevel,
section, enrollmentDate); nullable columns may be absent. -/
def parseInsertStudent (p : StudentPayload) : Option InsertStudent :=
  match p.studentId, p.firstName, p.lastName, p.gender, p.dateOfBirth,
        p.email, p.gradeLevel, p.«section», p.enrollmentDate with
  | some sid, some fn, some ln, some g, some dob, some em, some gl,
    some sec, some ed =>
      some { studentId := sid, firstName := fn, lastName := ln, gender := g,
             dateOfBirth := dob, email := em, phone := p.phone,
             address := p.address, guardianName := p.guardianName,
             guardianPhone := p.guardianPhone, gradeLevel := gl,
             «section» := sec, enrollmentDate := ed, avatar := p.avatar }
  | _, _, _, _, _, _, _, _, _ => none

/-- Unvalidated JSON request body for a Teacher. -/
structure TeacherPayload where
  teacherId : Option String
  firstName : Option String
  lastName : Option String
  email : Option String
  phone : Option String
  address : Option String
  qualification : Option String
  joinDate : Option Nat
  subjects : Option (List String)
  avatar : Option String
  userId : Option Nat
  deriving DecidableEq

/-- zod validation of a Teacher create payload: `insertTeacherSchema`
requires teacherId, firstName, lastName, email and joinDate; the
nullable columns, `userId` included, may be absent and `userId` is not
checked against the users collection. -/
def parseInsertTeacher (p : TeacherPayload) : Option InsertTeacher :=
  match p.teacherId, p.firstName, p.lastName, p.email, p.joinDate with
  | some tid, some fn, some ln, some em, some jd =>
      some { teacherId := tid, firstName := fn, lastName := ln, email := em,
             phone := p.phone, address := p.address,
             qualification := p.qualification, joinDate := jd,
             subjects := p.subjects, avatar := p.avatar, userId := p.userId }
  | _, _, _, _, _ => none

/-- Outcome of a route handler, paired with the store it leaves behind. -/
inductive ApiResult (α : Type) where
  | ok (status : Nat) (body : α)
  | validationError
  | notFound
  | serverError
  deriving DecidableEq

/-- POST /api/students (routes.ts): validate the body; on failure answer
400 without touching the store; on success create the student, then
append an activity entry, then answer 201 with the created record. -/
def postStudent (now : Nat) (p : StudentPayload) (st : Store) :
    Store × ApiResult Student :=
  match parseInsertStudent p with
  | none => (st, ApiResult.validationError)
  | some ins =>
      let r := Store.createStudent ins st
      let student := r.1
      let r2 := Store.createActivity now
        { userId := some 1, action := "Added Student",
          details := some ("Added " ++ student.firstName ++ " " ++
            student.lastName ++ " to Grade " ++ student.gradeLevel ++ "-" ++
            student.«section») } r.2
      (r2.2, ApiResult.ok 201 student)

/-- POST /api/teachers (routes.ts): validate the body; on failure answer
400; on success create the teacher (storing any supplied `userId`
unchecked), append an activity entry and answer 201. -/
def postTeacher (now : Nat) (p : TeacherPayload) (st : Store) :
    Store × ApiResult Teacher :=
  match parseInsertTeacher p with
  | none => (st, ApiResult.validationError)
  | some ins =>
      let r := Store.createTeacher ins st
      let teacher := r.1
      let r2 := Store.createActivity now
        { userId := some 1, action := "Added Teacher",
          details := some ("Added " ++ teacher.firstName ++ " " ++
            teacher.lastName ++ " to the faculty") } r.2
      (r2.2, ApiResult.ok 201 teacher)

/-- DELETE /api/users/:id (routes.ts): look the user up (404 when
absent), delete it from the users collection only, append an activity
entry and answer 204.  No cascade touches the teachers collection. -/
def deleteUserHandler (now : Nat) (id : Nat) (st : Store) :
    Store × ApiResult Unit :=
  match Store.getUser st id with
  | none => (st, ApiResult.notFound)
  | some user =>
      let r := Store.deleteUser id st
      if r.1 then
        let r2 := Store.createActivity now
          { userId := some 1, action := "Deleted User",
            details := some ("Deleted user " ++ user.username) } r.2
        (r2.2, ApiResult.ok 204 ())
      else
        (r.2, ApiResult.serverError)

/-- JS truthiness of a parsed numeric query parameter: an absent
parameter is `undefined` (falsy) and a parsed value of 0 is falsy. -/
def numTruthy (o : Option Nat) : Bool :=
  match o with
  | some n => n != 0
  | none => false

/-- GET /api/attendance (routes.ts): dispatch on the parsed query
parameters with `if (classId) ... else if (studentId) ... else if
(date) ...` — a parsed `Date` object is always truthy, so the date
branch fires whenever the parameter was supplied. -/
def getAttendanceQuery (classId studentId : Option Nat) (date : Option Nat)
    (st : Store) : List Attendance :=
  if numTruthy classId then
    Store.getAttendanceByClassId st (classId.getD 0)
  else if numTruthy studentId then
    Store.getAttendanceByStudentId st (studentId.getD 0)
  else
    match date with
    | some d => Store.getAttendanceByDate st d
    | none => Store.getAttendance st

/-- Quote-doubling pass of exportToCSV (exportData.ts):
`value.replace(/"/g, '""')` over the characters of a string field. -/
def escQuotes : List Char → List Char
  | [] => []
  | c :: cs =>
      if c = '"' then '"' :: '"' :: escQuotes cs else c :: escQuotes cs

/-- Test `/[,\n"]/.test(value)` of exportToCSV: does the field contain a
comma, a newline or a double quote? -/
def needsQuoting (cs : List Char) : Bool :=
  cs.any (fun c => c == ',' || c == '\n' || c == '"')

/-- String branch of the exportToCSV field serializer: double the
embedded quotes, then wrap the field in quotes exactly when the original
value contains a comma, newline or quote. -/
def csvField (cs : List Char) : List Char :=
  let escaped := escQuotes cs
  if needsQuoting cs then '"' :: (escaped ++ ['"']) else escaped

/-- The exportToCSV string-field serializer on `String`. -/
def csvFieldStr (s : String) : String :=
  String.mk (csvField s.toList)

theorem mget_mset_self {α : Type} (m : List (Nat × α)) (k : Nat) (v : α) :
    mget (mset m k v) k = some v := by
  induction m with
  | nil => simp [mget, mset]
  | cons q m ih =>
      by_cases hq : q.1 = k
      · simp [mget, mset, hq]
      · simp [mget, mset, hq, ih]

theorem mget_mset_ne {α : Type} (m : List (Nat × α)) (k k' : Nat) (v : α)
    (h : k' ≠ k) :
    mget (mset m k v) k' = mget m k' := by
  have hkk : ¬ (k : Nat) = k' := fun hh => h hh.symm
  induction m with
  | nil => simp [mget, mset, hkk]
  | cons q m ih =>
      by_cases hq : q.1 = k
      · have hqk' : ¬ q.1 = k' := by
          rw [hq]
          exact hkk
        simp [mget, mset, hq, hqk', hkk]
      · by_cases hq' : q.1 = k'
        · simp [mget, mset, hq, hq', h]
        · simp [mget, mset, hq, hq', ih]

theorem mget_mdelete_self {α : Type} (m : List (Nat × α)) (k : Nat) :
    mget (mdelete m k).2 k = none := by
  unfold mdelete
  induction m with
  | nil => simp [mget]
  | cons q m ih =>
      by_cases hq : q.1 = k
      · simpa [List.filter_cons, hq] using ih
      · simpa [List.filter_cons, hq, mget] using ih

theorem mdelete_fst {α : Type} (m : List (Nat × α)) (k : Nat) :
    (mdelete m k).1 = (mget m k).isSome := by
  unfold mdelete
  induction m with
  | nil => simp [mget]
  | cons q m ih =>
      by_cases hq : q.1 = k
      · simp [mget, hq]
      · have hqb : (q.1 == k) = false := by simpa using hq
        simpa [mget, hq, hqb] using ih

theorem mem_mset {α : Type} {m : List (Nat × α)} {k : Nat} {v : α}
    {q : Nat × α} (h : q ∈ mset m k v) : q ∈ m ∨ q = (k, v) := by
  induction m with
  | nil =>
      right
      simpa [mset] using h
  | cons p m ih =>
      by_cases hp : p.1 = k
      · rw [mset, if_pos (by simpa using hp)] at h
        rcases List.mem_cons.mp h with h | h
        · exact Or.inr h
        · exact Or.inl (List.mem_cons_of_mem _ h)
      · rw [mset, if_neg (by simpa using hp)] at h
        rcases List.mem_cons.mp h with h | h
        · exact Or.inl (h ▸ List.mem_cons_self _ _)
        · rcases ih h with h | h
          · exact Or.inl (List.mem_cons_of_mem _ h)
          · exact Or.inr h

theorem mem_mdelete_snd {α : Type} {m : List (Nat × α)} {k : Nat}
    {q : Nat × α} (h : q ∈ (mdelete m k).2) : q ∈ m :=
  (List.mem_filter.mp h).1

/-- One public mutation on the student collection: a create (as issued by
POST /api/students after validation) or a delete by identifier. -/
inductive StudentOp where
  | create (ins : InsertStudent)
  | del (id : Nat)

/-- Observable event of one student-collection operation: the identifier
a create assigned, or the identifier a successful delete removed. -/
inductive ColEvent where
  | created (id : Nat)
  | deleted (id : Nat)
  deriving DecidableEq

/-- The identifier carried by a collection event. -/
def ColEvent.eid : ColEvent → Nat
  | ColEvent.created id => id
  | ColEvent.deleted id => id

/-- Run one student-collection operation through the MemStorage methods,
recording its event (a failed delete records nothing). -/
def studentStep (st : Store) : StudentOp → Store × Option ColEvent
  | StudentOp.create ins =>
      let r := Store.createStudent ins st
      (r.2, some (ColEvent.created r.1.id))
  | StudentOp.del id =>
      let r := Store.deleteStudent id st
      (r.2, if r.1 then some (ColEvent.deleted id) else none)

/-- Run a sequence of student-collection operations, collecting the
events in order. -/
def studentRun : Store → List StudentOp → Store × List ColEvent
  | st, [] => (st, [])
  | st, op :: ops =>
      let r := studentStep st op
      let rest := studentRun r.1 ops
      (rest.1, r.2.toList ++ rest.2)

/-- Identifiers assigned by the create events of a log, in order. -/
def createdIds (log : List ColEvent) : List Nat :=
  log.filterMap (fun e =>
    match e with
    | ColEvent.created id => some id
    | ColEvent.deleted _ => none)

/-- Counter invariant of the student collection: every stored key is
below the next identifier to be assigned. -/
def studentsInv (st : Store) : Bool :=
  st.students.all (fun p => p.1 < st.studentIdCounter)

theorem studentsInv_iff {st : Store} :
    studentsInv st = true ↔ ∀ p ∈ st.students, p.1 < st.studentIdCounter := by
  simp [studentsInv]

theorem studentStep_counter_le (st : Store) (op : StudentOp) :
    st.studentIdCounter ≤ (studentStep st op).1.studentIdCounter := by
  cases op with
  | create ins => exact Nat.le_succ _
  | del id => exact Nat.le_refl _

theorem studentStep_inv {st : Store} (op : StudentOp)
    (h : studentsInv st = true) : studentsInv (studentStep st op).1 = true := by
  rw [studentsInv_iff] at h ⊢
  cases op with
  | create ins =>
      intro p hp
      rcases mem_mset hp with hp | hp
      · exact Nat.lt_succ_of_lt (h p hp)
      · rw [hp]
        exact Nat.lt_succ_self _
  | del id =>
      intro p hp
      exact h p (mem_mdelete_snd hp)

theorem studentRun_created_ge (ops : List StudentOp) :
    ∀ st : Store, ∀ e ∈ (studentRun st ops).2, ∀ id : Nat,
      e = ColEvent.created id → st.studentIdCounter ≤ id := by
  induction ops with
  | nil =>
      intro st e he
      simp [studentRun] at he
  | cons op ops ih =>
      intro st e he id hid
      rw [studentRun] at he
      rcases List.mem_append.mp he with he | he
      · cases op with
        | create ins =>
            simp [studentStep] at he
            rw [he] at hid
            rw [ColEvent.created.injEq] at hid
            rw [← hid]
            exact Nat.le_refl _
        | del did =>
            by_cases hd : (Store.deleteStudent did st).1 = true
            · simp [studentStep, hd] at he
              rw [he] at hid
              exact absurd hid (by simp)
            · simp [studentStep, Bool.eq_false_iff.mpr hd] at he
      · calc st.studentIdCounter
            ≤ (studentStep st op).1.studentIdCounter :=
              studentStep_counter_le st op
          _ ≤ id := ih (studentStep st op).1 e he id hid

/-- Ordering invariant of the event log: every identifier assigned by a
later create is strictly larger than the identifier of any earlier
event. -/
def logRel (e1 e2 : ColEvent) : Prop :=
  ∀ id2 : Nat, e2 = ColEvent.created id2 → e1.eid < id2

theorem mget_isSome_mem {α : Type} {m : List (Nat × α)} {k : Nat}
    (h : (mget m k).isSome = true) : ∃ p ∈ m, p.1 = k := by
  induction m with
  | nil => simp [mget] at h
  | cons q m ih =>
      by_cases hq : q.1 = k
      · exact ⟨q, List.mem_cons_self _ _, hq⟩
      · rcases ih (by simpa [mget, hq] using h) with ⟨p, hp, hp1⟩
        exact ⟨p, List.mem_cons_of_mem _ hp, hp1⟩

theorem studentRun_pairwise (ops : List StudentOp) :
    ∀ st : Store, studentsInv st = true →
      ((studentRun st ops).2).Pairwise logRel := by
  induction ops with
  | nil =>
      intro st _
      simp [studentRun]
  | cons op ops ih =>
      intro st hinv
      rw [studentRun]
      have hinv' := studentStep_inv op hinv
      have htail := ih (studentStep st op).1 hinv'
      cases op with
      | create ins =>
          refine List.pairwise_append.mpr ⟨?_, htail, ?_⟩
          · simp [studentStep]
          · intro e1 he1 e2 he2 id2 hid2
            simp [studentStep] at he1
            rw [he1]
            have hge := studentRun_created_ge ops
              (studentStep st (StudentOp.create ins)).1 e2 he2 id2 hid2
            have hc : (studentStep st (StudentOp.create ins)).1.studentIdCounter
                = st.studentIdCounter + 1 := rfl
            have hcc : (Store.createStudent ins st).1.id = st.studentIdCounter :=
              rfl
            simp only [ColEvent.eid]
            omega
      | del did =>
          by_cases hd : (Store.deleteStudent did st).1 = true
          · refine List.pairwise_append.mpr ⟨?_, htail, ?_⟩
            · simp [studentStep, hd]
            · intro e1 he1 e2 he2 id2 hid2
              simp [studentStep, hd] at he1
              have hmem : (mget st.students did).isSome := by
                rw [← mdelete_fst st.students did]
                exact hd
              have hlt : did < st.studentIdCounter := by
                rcases mget_isSome_mem hmem with ⟨p, hp, hp1⟩
                rw [← hp1]
                exact studentsInv_iff.mp hinv p hp
              have hge := studentRun_created_ge ops
                (studentStep st (StudentOp.del did)).1 e2 he2 id2 hid2
              have hc : (studentStep st (StudentOp.del did)).1.studentIdCounter
                  = st.studentIdCounter := rfl
              rw [hc] at hge
              rw [he1]
              simp only [ColEvent.eid]
              omega
          · have hnone : (studentStep st (StudentOp.del did)).2 = none := by
              simp [studentStep, Bool.eq_false_iff.mpr hd]
            rw [hnone]
            simpa using htail

/-- Sample validated Student payload (values from the seeded data of
storage.ts), used as a concrete input for witnesses. -/
def sampleInsertStudent : InsertStudent where
  studentId := "STU10045"
  firstName := "Sarah"
  lastName := "Johnson"
  gender := "F"
  dateOfBirth := 1179187200000
  email := "sarah.j@example.com"
  phone := some "+1 234-567-8901"
  address := some "101 Student Way, Springfield"
  guardianName := some "Michael Johnson"
  guardianPhone := some "+1 234-567-8910"
  gradeLevel := "10"
  «section» := "A"
  enrollmentDate := 1661990400000
  avatar := none

/-- The Student record `sampleInsertStudent` receives when created with
identifier 1. -/
def sampleStudent : Student where
  id := 1
  studentId := "STU10045"
  firstName := "Sarah"
  lastName := "Johnson"
  gender := "F"
  dateOfBirth := 1179187200000
  email := "sarah.j@example.com"
  phone := some "+1 234-567-8901"
  address := some "101 Student Way, Springfield"
  guardianName := some "Michael Johnson"
  guardianPhone := some "+1 234-567-8910"
  gradeLevel := "10"
  «section» := "A"
  enrollmentDate := 1661990400000
  avatar := none

/-- Store holding exactly `sampleStudent` under key 1. -/
def storeWithSampleStudent : Store :=
  { emptyStore with students := [(1, sampleStudent)], studentIdCounter := 2 }

/-- Patch that supplies only a new last name. -/
def lastNamePatch : StudentPatch where
  studentId := none
  firstName := none
  lastName := some "Smith"
  gender := none
  dateOfBirth := none
  email := none
  phone := none
  address := none
  guardianName := none
  guardianPhone := none
  gradeLevel := none
  «section» := none
  enrollmentDate := none
  avatar := none

/-- C2: a create request whose payload fails schema validation (for
example a Student payload missing the required `studentId`) receives a
validation error and leaves the entire Data Store unchanged — no
collection gains, loses, or modifies any record, because the handler
returns before calling any storage mutation. -/
theorem c2_invalid_payload_leaves_store_unchanged (now : Nat)
    (p : StudentPayload) (st : Store) (h : parseInsertStudent p = none) :
    (postStudent now p st).1 = st ∧
    (postStudent now p st).2 = ApiResult.validationError := by
  rw [postStudent, h]
  exact ⟨rfl, rfl⟩

/-- Student payload identical to `sampleInsertStudent` except that the
required `studentId` field is missing. -/
def payloadMissingStudentId : StudentPayload where
  studentId := none
  firstName := some "Sarah"
  lastName := some "Johnson"
  gender := some "F"
  dateOfBirth := some 1179187200000
  email := some "sarah.j@example.com"
  phone := some "+1 234-567-8901"
  address := some "101 Student Way, Springfield"
  guardianName := some "Michael Johnson"
  guardianPhone := some "+1 234-567-8910"
  gradeLevel := some "10"
  «section» := some "A"
  enrollmentDate := some 1661990400000
  avatar := none

theorem c2_invalid_payload_leaves_store_unchanged_witness :
    parseInsertStudent payloadMissingStudentId = none ∧
    (postStudent 0 payloadMissingStudentId storeWithSampleStudent).1 =
      storeWithSampleStudent :=
  ⟨rfl, (c2_invalid_payload_leaves_store_unchanged 0 payloadMissingStudentId
    storeWithSampleStudent rfl).1⟩

/-- C3: updateStudent merges the supplied fields onto the stored record —
each field present in the patch is replaced and every other field keeps
its prior value, the identifier included; every other record is
untouched; and when no record exists for the identifier it returns
`none` and leaves the store exactly as it was. -/
theorem c3_update_is_merge (st : Store) (id : Nat) (p : StudentPatch) :
    (mget st.students id = none → Store.updateStudent id p st = (none, st)) ∧
    (∀ old : Student, mget st.students id = some old →
      (Store.updateStudent id p st).1 = some (mergeStudent old p) ∧
      mget (Store.updateStudent id p st).2.students id =
        some (mergeStudent old p) ∧
      (∀ id2 : Nat, id2 ≠ id →
        mget (Store.updateStudent id p st).2.students id2 =
          mget st.students id2) ∧
      (mergeStudent old p).id = old.id ∧
      (mergeStudent old p).studentId = p.studentId.getD old.studentId ∧
      (mergeStudent old p).firstName = p.firstName.getD old.firstName ∧
      (mergeStudent old p).lastName = p.lastName.getD old.lastName ∧
      (mergeStudent old p).gender = p.gender.getD old.gender ∧
      (mergeStudent old p).dateOfBirth = p.dateOfBirth.getD old.dateOfBirth ∧
      (mergeStudent old p).email = p.email.getD old.email ∧
      (mergeStudent old p).phone = p.phone.getD old.phone ∧
      (mergeStudent old p).address = p.address.getD old.address ∧
      (mergeStudent old p).guardianName =
        p.guardianName.getD old.guardianName ∧
      (mergeStudent old p).guardianPhone =
        p.guardianPhone.getD old.guardianPhone ∧
      (mergeStudent old p).gradeLevel = p.gradeLevel.getD old.gradeLevel ∧
      (mergeStudent old p).«section» = p.«section».getD old.«section» ∧
      (mergeStudent old p).enrollmentDate =
        p.enrollmentDate.getD old.enrollmentDate ∧
      (mergeStudent old p).avatar = p.avatar.getD old.avatar) := by
  constructor
  · intro h
    rw [Store.updateStudent, h]
  · intro old h
    rw [Store.updateStudent, h]
    refine ⟨rfl, ?_, ?_, rfl, rfl, rfl, rfl, rfl, rfl, rfl, rfl, rfl, rfl,
      rfl, rfl, rfl, rfl, rfl⟩
    · exact mget_mset_self st.students id (mergeStudent old p)
    · intro id2 h2
      exact mget_mset_ne st.students id id2 (mergeStudent old p) h2

theorem c3_update_is_merge_witness :
    mget storeWithSampleStudent.students 1 = some sampleStudent ∧
    (Store.updateStudent 1 lastNamePatch storeWithSampleStudent).1 =
      some (mergeStudent sampleStudent lastNamePatch) :=
  ⟨rfl, ((c3_update_is_merge storeWithSampleStudent 1 lastNamePatch).2
    sampleStudent rfl).1⟩

/-- C5: deleteStudent returns `true` exactly when a record with the
identifier existed (and removes it); afterwards a lookup returns absent
and a second delete of the same identifier returns `false`. -/
theorem c5_delete_semantics (st : Store) (id : Nat) :
    (Store.deleteStudent id st).1 = (mget st.students id).isSome ∧
    Store.getStudent (Store.deleteStudent id st).2 id = none ∧
    (Store.deleteStudent id (Store.deleteStudent id st).2).1 = false := by
  have hdel : mget (Store.deleteStudent id st).2.students id = none := by
    have := mget_mdelete_self st.students id
    simpa [Store.deleteStudent] using this
  refine ⟨?_, ?_, ?_⟩
  · have := mdelete_fst st.students id
    simpa [Store.deleteStudent] using this
  · simpa [Store.getStudent] using hdel
  · have h2 := mdelete_fst (Store.deleteStudent id st).2.students id
    simp only [Store.deleteStudent] at h2 hdel ⊢
    rw [h2, hdel]
    rfl

/-- C1: the dashboard attendance rate is 0 when the store holds no
Attendance records, and otherwise equals the count of records with
status `present` or `late`, divided by the total number of Attendance
records, times 100, rounded to one decimal place (round half up on the
first decimal). -/
theorem c1_attendance_rate (st : Store) :
    (st.attendance = [] → (Store.getDashboardStats st).attendanceRate = 0) ∧
    (st.attendance ≠ [] →
      (Store.getDashboardStats st).attendanceRate =
        (jsRound ((((st.attendance.map Prod.snd).filter
            (fun a => decide (a.status = "present" ∨ a.status = "late"))).length : ℚ)
          / ((st.attendance.map Prod.snd).length : ℚ) * 100 * 10) : ℚ) / 10) := by
  constructor
  · intro h
    rw [Store.getDashboardStats]
    simp only [h, List.map_nil, List.length_nil]
    norm_num [jsRound, Int.floor_eq_zero_iff]
  · intro h
    rw [Store.getDashboardStats]
    have hlen : 0 < (st.attendance.map Prod.snd).length := by
      rw [List.length_map]
      exact List.length_pos.mpr h
    have hfil : (st.attendance.map Prod.snd).filter
        (fun a => a.status == "present" || a.status == "late") =
        (st.attendance.map Prod.snd).filter
        (fun a => decide (a.status = "present" ∨ a.status = "late")) := by
      refine List.filter_congr ?_
      intro x _
      rw [Bool.eq_iff_iff]
      simp
    simp only [hfil, if_pos hlen]

/-- Store holding four Attendance records of which three have status
`present` or `late` (the 3-of-4 example of the specification). -/
def storeThreeOfFour : Store :=
  { emptyStore with
      attendance :=
        [(1, { id := 1, classId := 1, studentId := 1, date := 0,
               status := "present", notes := none }),
         (2, { id := 2, classId := 1, studentId := 2, date := 0,
               status := "late", notes := none }),
         (3, { id := 3, classId := 1, studentId := 3, date := 0,
               status := "present", notes := none }),
         (4, { id := 4, classId := 1, studentId := 4, date := 0,
               status := "absent", notes := none })]
      attendanceIdCounter := 5 }

theorem c1_attendance_rate_witness :
    storeThreeOfFour.attendance ≠ [] ∧
    (Store.getDashboardStats storeThreeOfFour).attendanceRate = 75 := by
  refine ⟨by decide, ?_⟩
  rw [(c1_attendance_rate storeThreeOfFour).2 (by decide)]
  have h3 : ((storeThreeOfFour.attendance.map Prod.snd).filter
      (fun a => decide (a.status = "present" ∨ a.status = "late"))).length = 3 := by
    decide
  have h4 : ((storeThreeOfFour.attendance.map Prod.snd)).length = 4 := by
    decide
  rw [h3, h4]
  push_cast
  have haux : jsRound ((3 : ℚ) / 4 * 100 * 10) = 750 := by
    rw [jsRound, show ((3 : ℚ) / 4 * 100 * 10 + 1 / 2) = 1501 / 2 by norm_num]
    exact Int.floor_eq_iff.mpr (by norm_num)
  rw [haux]
  norm_num

/-- C4: getActivities returns the Activity records sorted by timestamp
descending — adjacent records are in non-increasing timestamp order —
and the returned sequence is a permutation of the stored records, for
every store state and hence every insertion order. -/
theorem c4_activities_sorted (st : Store) :
    (Store.getActivities st).Pairwise
      (fun a b => b.timestamp ≤ a.timestamp) ∧
    List.Perm (Store.getActivities st) (st.activities.map Prod.snd) := by
  constructor
  · exact List.sorted_insertionSort tsDesc (st.activities.map Prod.snd)
  · exact List.perm_insertionSort tsDesc (st.activities.map Prod.snd)

/-- C7: getAttendanceByDate keeps exactly the records whose date falls
on the same UTC calendar day as the query date, and the calendar day of
a timestamp ignores its time-of-day component entirely: any two
timestamps within the same day compare equal under `toDateKey`. -/
theorem c7_date_filter (st : Store) (q : Nat) (a : Attendance) :
    (a ∈ Store.getAttendanceByDate st q ↔
      a ∈ st.attendance.map Prod.snd ∧ toDateKey a.date = toDateKey q) ∧
    (∀ day t1 t2 : Nat, t1 < 86400000 → t2 < 86400000 →
      toDateKey (day * 86400000 + t1) = toDateKey (day * 86400000 + t2)) := by
  constructor
  · rw [Store.getAttendanceByDate, List.mem_filter]
    simp
  · intro day t1 t2 h1 h2
    unfold toDateKey
    rw [Nat.mul_comm day 86400000, Nat.mul_add_div (by norm_num),
      Nat.mul_add_div (by norm_num), Nat.div_eq_of_lt h1,
      Nat.div_eq_of_lt h2]

/-- Attendance record timestamped one day and five seconds after the
epoch. -/
def attendanceDayOne : Attendance where
  id := 1
  classId := 1
  studentId := 1
  date := 86405000
  status := "present"
  notes := none

/-- Store holding exactly `attendanceDayOne`. -/
def storeDayOne : Store :=
  { emptyStore with
      attendance := [(1, attendanceDayOne)]
      attendanceIdCounter := 2 }

theorem c7_date_filter_witness :
    attendanceDayOne ∈ Store.getAttendanceByDate storeDayOne 86407000 ∧
    toDateKey (2 * 86400000 + 5000) = toDateKey (2 * 86400000 + 6000) :=
  ⟨(c7_date_filter storeDayOne 86407000 attendanceDayOne).1.mpr
      ⟨by decide, by decide⟩,
    (c7_date_filter storeDayOne 86407000 attendanceDayOne).2 2 5000 6000
      (by decide) (by decide)⟩

theorem pairwise_filterMap_of_pairwise {α β : Type} (f : α → Option β)
    {R : α → α → Prop} {S : β → β → Prop}
    (hf : ∀ a b x y, R a b → f a = some x → f b = some y → S x y) :
    ∀ {l : List α}, l.Pairwise R → (l.filterMap f).Pairwise S := by
  intro l hl
  induction hl with
  | nil => simp
  | @cons a l ha _ ih =>
      rw [List.filterMap_cons]
      cases hfa : f a with
      | none => exact ih
      | some x =>
          rw [List.pairwise_cons]
          refine ⟨?_, ih⟩
          intro y hy
          rcases List.mem_filterMap.mp hy with ⟨b, hb, hfb⟩
          exact hf a b x y (ha b hb) hfa hfb

/-- Specification-side quoting: the value with every embedded quote
doubled (each `"` becomes `""`, all other characters unchanged). -/
def doubleQuotes (cs : List Char) : List Char :=
  cs.flatMap (fun c => if c = '"' then ['"', '"'] else [c])

theorem escQuotes_eq_doubleQuotes (cs : List Char) :
    escQuotes cs = doubleQuotes cs := by
  induction cs with
  | nil => rfl
  | cons c cs ih =>
      by_cases hc : c = '"'
      · simp [escQuotes, doubleQuotes, hc, List.flatMap_cons] at ih ⊢
        simpa [doubleQuotes] using ih
      · simp [escQuotes, doubleQuotes, hc, List.flatMap_cons] at ih ⊢
        simpa [doubleQuotes] using ih

theorem escQuotes_of_no_quote {cs : List Char}
    (h : ∀ c ∈ cs, c ≠ '"') : escQuotes cs = cs := by
  induction cs with
  | nil => rfl
  | cons c cs ih =>
      rw [escQuotes, if_neg (h c (List.mem_cons_self _ _))]
      rw [ih (fun d hd => h d (List.mem_cons_of_mem _ hd))]

/-- C9: a CSV string field containing a comma, quote, or newline is
serialized as the value with every embedded quote doubled, wrapped in
quotes; any other value is emitted unwrapped and unchanged; and the
field value `He said, "great job"` renders as
`"He said, ""great job"""`. -/
theorem c9_csv_escaping (cs : List Char) :
    (needsQuoting cs = true →
      csvField cs = '"' :: (doubleQuotes cs ++ ['"'])) ∧
    (needsQuoting cs = false → csvField cs = cs) ∧
    csvFieldStr "He said, \"great job\"" = "\"He said, \"\"great job\"\"\"" := by
  refine ⟨?_, ?_, by decide⟩
  · intro h
    rw [csvField]
    simp only [h, if_pos]
    rw [escQuotes_eq_doubleQuotes]
  · intro h
    rw [csvField]
    simp only [h, Bool.false_eq_true, if_neg]
    have hnq : ∀ c ∈ cs, c ≠ '"' := by
      intro c hc hq
      have : needsQuoting cs = true := by
        rw [needsQuoting, List.any_eq_true]
        exact ⟨c, hc, by simp [hq]⟩
      rw [h] at this
      exact Bool.false_ne_true this
    exact escQuotes_of_no_quote hnq

theorem c9_csv_escaping_witness :
    needsQuoting ("a,b".toList) = true ∧
    csvField ("a,b".toList) = '"' :: (doubleQuotes ("a,b".toList) ++ ['"']) :=
  ⟨by decide, (c9_csv_escaping ("a,b".toList)).1 (by decide)⟩

/-- C6: over every sequence of create and delete operations on the
student collection (from any state whose stored keys are below the id
counter, the empty store included), the identifiers assigned by creates
are pairwise distinct, and an identifier removed by a delete is never
assigned to a later create. -/
theorem c6_ids_never_reused (st : Store) (ops : List StudentOp)
    (h : studentsInv st = true) :
    (createdIds (studentRun st ops).2).Pairwise (fun a b => a ≠ b) ∧
    ((studentRun st ops).2).Pairwise (fun e1 e2 => ∀ id1 id2 : Nat,
      e1 = ColEvent.deleted id1 → e2 = ColEvent.created id2 →
        id1 ≠ id2) := by
  have hp := studentRun_pairwise ops st h
  constructor
  · refine pairwise_filterMap_of_pairwise _ ?_ hp
    intro a b x y hab hfa hfb
    have hb : b = ColEvent.created y := by
      cases b with
      | created id => simpa using hfb
      | deleted id => simp at hfb
    have ha : a = ColEvent.created x := by
      cases a with
      | created id => simpa using hfa
      | deleted id => simp at hfa
    have hlt := hab y hb
    rw [ha] at hlt
    simp only [ColEvent.eid] at hlt
    omega
  · refine hp.imp ?_
    intro e1 e2 h12 id1 id2 h1 h2
    have hlt := h12 id2 h2
    rw [h1] at hlt
    simp only [ColEvent.eid] at hlt
    omega

theorem c6_ids_never_reused_witness :
    studentsInv emptyStore = true ∧
    (createdIds (studentRun emptyStore
        [StudentOp.create sampleInsertStudent, StudentOp.del 1,
         StudentOp.create sampleInsertStudent]).2).Pairwise
      (fun a b => a ≠ b) :=
  ⟨rfl, (c6_ids_never_reused emptyStore
    [StudentOp.create sampleInsertStudent, StudentOp.del 1,
     StudentOp.create sampleInsertStudent] rfl).1⟩

/-- The default admin User created by the `MemStorage` constructor
(storage.ts), stored under identifier 1. -/
def adminUser : User where
  id := 1
  username := "admin"
  password := "admin123"
  role := "admin"
  fullName := "Jane Cooper"
  email := "admin@school.edu"
  avatar := some "https://images.unsplash.com/photo-1534528741775-53994a69daeb"

/-- The first seeded Teacher of `seedSampleData` (storage.ts), whose
`userId` references the admin user; stored under identifier 1.
`joinDate` is 2020-08-01 UTC in epoch milliseconds. -/
def teacherRobertFox : Teacher where
  id := 1
  teacherId := "TCH1001"
  firstName := "Robert"
  lastName := "Fox"
  email := "robert.fox@school.edu"
  phone := some "+1-555-123-4567"
  address := some "123 Oak St, Springfield"
  qualification := some "M.Ed in Mathematics"
  joinDate := 1596240000000
  subjects := some ["Mathematics", "Physics"]
  avatar := some "https://images.unsplash.com/photo-1500648767791-00dcc994a43e"
  userId := some 1

/-- Slice of the seeded initial store relevant to the
Teacher-references-User invariant: the admin user and the seeded teacher
whose `userId` is 1, exactly the configuration the constructor
produces. -/
def seededSlice : Store :=
  { emptyStore with
      users := [(1, adminUser)]
      userIdCounter := 2
      teachers := [(1, teacherRobertFox)]
      teacherIdCounter := 2 }

/-- Referential-integrity check of the specification: every Teacher
whose `userId` is present references an existing User. -/
def teacherUserRef (st : Store) : Bool :=
  st.teachers.all (fun p =>
    match p.2.userId with
    | none => true
    | some uid => (mget st.users uid).isSome)

/-- Valid Teacher create payload whose `userId` (999) references no
existing User. -/
def teacherPayload999 : TeacherPayload where
  teacherId := "TCH9999"
  firstName := "Ghost"
  lastName := "Reference"
  email := "ghost@school.edu"
  phone := none
  address := none
  qualification := none
  joinDate := some 1596240000000
  subjects := none
  avatar := none
  userId := some 999

/-- C8: the public operations do not maintain the invariant.  On the
seeded user/teacher configuration the invariant initially holds, but
DELETE /api/users/1 succeeds (204) while leaving the teacher whose
`userId` is 1 in place, breaking it; and POST /api/teachers accepts a
valid payload whose `userId` is 999 without checking the users
collection, creating a dangling reference directly. -/
theorem c8_user_reference_not_enforced :
    teacherUserRef seededSlice = true ∧
    (deleteUserHandler 0 1 seededSlice).2 = ApiResult.ok 204 () ∧
    teacherUserRef (deleteUserHandler 0 1 seededSlice).1 = false ∧
    teacherUserRef (postTeacher 0 teacherPayload999 seededSlice).1 = false := by
  decide

/-- Attendance record with classId 0, creatable through
POST /api/attendance because the schema accepts any integer classId. -/
def attRecClassZero : Attendance where
  id := 1
  classId := 0
  studentId := 7
  date := 0
  status := "present"
  notes := none

/-- Attendance record with classId 3 and studentId 2. -/
def attRecClassThree : Attendance where
  id := 2
  classId := 3
  studentId := 2
  date := 0
  status := "absent"
  notes := none

/-- Store holding the two records above. -/
def storeClassZero : Store :=
  { emptyStore with
      attendance := [(1, attRecClassZero), (2, attRecClassThree)]
      attendanceIdCounter := 3 }

/-- C10 counterexample: with both classId and studentId supplied, a
classId that parses to 0 is falsy, so the handler filters by studentId
instead of classId — the result differs from the classId-filtered
records the claim prescribes. -/
theorem c10_counterexample :
    getAttendanceQuery (some 0) (some 2) none storeClassZero =
      [attRecClassThree] ∧
    (storeClassZero.attendance.map Prod.snd).filter
      (fun a => a.classId == (0 : Nat)) = [attRecClassZero] ∧
    attRecClassZero ≠ attRecClassThree := by
  decide

/-- C10 amended: exactly one filter is applied with precedence classId
over studentId over date, where a numeric parameter counts as present
only when its parsed value is nonzero (a 0 is falsy in JS and is treated
as absent); a supplied date always counts; with no effective filter all
records are returned. -/
theorem c10_filter_precedence (cid sid d : Option Nat) (st : Store)
    (a : Attendance) :
    a ∈ getAttendanceQuery cid sid d st ↔
      a ∈ st.attendance.map Prod.snd ∧
      (if numTruthy cid then a.classId = cid.getD 0
       else if numTruthy sid then a.studentId = sid.getD 0
       else
         match d with
         | some dd => toDateKey a.date = toDateKey dd
         | none => True) := by
  by_cases hc : numTruthy cid = true
  · simp [getAttendanceQuery, hc, Store.getAttendanceByClassId,
      List.mem_filter]
  · have hc' : numTruthy cid = false := Bool.eq_false_iff.mpr hc
    by_cases hs : numTruthy sid = true
    · simp [getAttendanceQuery, hc', hs, Store.getAttendanceByStudentId,
        List.mem_filter]
    · have hs' : numTruthy sid = false := Bool.eq_false_iff.mpr hs
      cases d with
      | some dd =>
          simp [getAttendanceQuery, hc', hs', Store.getAttendanceByDate,
            List.mem_filter]
      | none => simp [getAttendanceQuery, hc', hs', Store.getAttendance]

end SchoolMS
